import Mathlib

/-! Shallow embedding of the py-coingecko client library
(`src/coingecko/utils.py` and `src/coingecko/coingecko.py`).

Python parameter values are modelled by a closed sum type `Value`;
parameter dictionaries by insertion-ordered association lists with
string keys (Python dicts preserve insertion order and the code only
filters and remaps values in place, so list equality of the embedding
implies Python dict equality). The HTTP transport (`requests`) is an
external collaborator: a `Response` carries the integer status code,
the decoded raw body, and the result of the JSON-parse operation, as
described by the spec's external-interface section. -/

namespace CoinGeckoSpec

/-- Python values that can appear in a request-parameter mapping:
strings, booleans, integers, lists, and `None`. -/
inductive Value where
  | str (s : String)
  | bool (b : Bool)
  | int (n : Int)
  | list (xs : List Value)
  | none

mutual

/-- Python `repr` of a `Value`. -/
def pyRepr : Value → String
  | .str s => "\x27" ++ s ++ "\x27"
  | .bool b => if b then "True" else "False"
  | .int n => toString n
  | .list xs => "[" ++ String.intercalate ", " (pyReprList xs) ++ "]"
  | .none => "None"

/-- Python `repr` of each element of a list of values. -/
def pyReprList : List Value → List String
  | [] => []
  | v :: vs => pyRepr v :: pyReprList vs

end

/-- Python `str` of a `Value`: the string itself for strings, `repr`
for everything else. -/
def pyStr : Value → String
  | .str s => s
  | v => pyRepr v

/-- Python `str.lower` on the ASCII strings this code produces,
applied character by character. -/
def pyLower (s : String) : String :=
  String.mk (s.data.map Char.toLower)

/-- A Python dict with string keys, as an insertion-ordered
association list. -/
abbrev Dict := List (String × Value)

/-- Test used by `utils.remove_empty_dict_values`: Python's
`v is not None`, an identity check against the `None` singleton. -/
def isNotNone : Value → Bool
  | Value.none => false
  | _ => true

/-- Embedding of `utils.remove_empty_dict_values`: keep the entries
whose value is not `None`. -/
def remove_empty_dict_values (dic : Dict) : Dict :=
  dic.filter (fun kv => isNotNone kv.2)

/-- Embedding of the loop body of `utils.clean_dict_values`: a boolean
becomes `str(value).lower()`, a list becomes the comma join of the
`str` of its elements, everything else is unchanged. -/
def cleanValue : Value → Value
  | .bool b => .str (pyLower (pyStr (.bool b)))
  | .list xs => .str (String.intercalate "," (xs.map pyStr))
  | v => v

/-- Embedding of `utils.clean_dict_values`: rewrite every value by
`cleanValue`, keys and order unchanged. -/
def clean_dict_values (dic : Dict) : Dict :=
  dic.map (fun kv => (kv.1, cleanValue kv.2))

/-- Embedding of `utils.clean_params`: a falsy argument (`None` or the
empty dict) yields `None`; otherwise drop empty values, then clean the
remaining values. -/
def clean_params : Option Dict → Option Dict
  | Option.none => Option.none
  | Option.some params =>
      if params.isEmpty then Option.none
      else Option.some (clean_dict_values (remove_empty_dict_values params))

/-- A parsed JSON document, as the Python object the transport's
JSON-parse operation produces. -/
inductive Json where
  | null
  | jbool (b : Bool)
  | num (n : Int)
  | jstr (s : String)
  | arr (xs : List Json)
  | obj (fields : List (String × Json))

mutual

/-- Python `repr` of a parsed JSON document. -/
def jsonRepr : Json → String
  | .null => "None"
  | .jbool b => if b then "True" else "False"
  | .num n => toString n
  | .jstr s => "\x27" ++ s ++ "\x27"
  | .arr xs => "[" ++ String.intercalate ", " (jsonReprList xs) ++ "]"
  | .obj fs => "\x7b" ++ String.intercalate ", " (jsonReprFields fs) ++ "\x7d"

/-- Python `repr` of each element of a JSON array. -/
def jsonReprList : List Json → List String
  | [] => []
  | v :: vs => jsonRepr v :: jsonReprList vs

/-- Python `repr` of each field of a JSON object. -/
def jsonReprFields : List (String × Json) → List String
  | [] => []
  | (k, v) :: fs => ("\x27" ++ k ++ "\x27: " ++ jsonRepr v) :: jsonReprFields fs

end

/-- Python `str` of a parsed JSON document: the string itself for a
JSON string, `repr` for everything else. -/
def jsonStr : Json → String
  | .jstr s => s
  | v => jsonRepr v

/-- How the transport's JSON-parse operation can fail:
`json.JSONDecodeError` when the body is not valid JSON (the only kind
a real transport produces, per the spec's external interface), or any
other exception. The distinction matters because `_get` catches every
exception while `CoinGeckoAPIError.__str__` catches only
`json.JSONDecodeError`. -/
inductive JsonFailure where
  | decodeError
  | otherError

/-- Modelled from the spec's external-interface section: the transport
collaborator's response exposes an integer status code, the decoded
raw body, and a JSON-parse operation that either yields a parsed
document or fails. -/
structure Response where
  status_code : Nat
  content : String
  json : Except JsonFailure Json

/-- Python exceptions that the embedded client code can raise. -/
inductive PyErr where
  | apiError (r : Response)
  | keyError (k : String)
  | typeError
  | jsonError (e : JsonFailure)

/-- Python subscripting `j["error"]`-style on a parsed JSON document:
a key lookup on an object (raising `KeyError` when the key is
missing), a `TypeError` on any non-object. -/
def jsonSubscript (j : Json) (k : String) : Except PyErr Json :=
  match j with
  | .obj fs =>
      match fs.lookup k with
      | Option.some v => Except.ok v
      | Option.none => Except.error (PyErr.keyError k)
  | _ => Except.error PyErr.typeError

/-- Embedding of `CoinGeckoAPIError.__str__`: try
`self.response.json()["error"]`, catching only `json.JSONDecodeError`
by falling back to the decoded body; render as
`f"\x7bstatus_code\x7d \x7bcontent\x7d"`. A `KeyError` or `TypeError`
from the subscript, or a non-decode failure of the parse, propagates
uncaught. -/
def CoinGeckoAPIError.str (r : Response) : Except PyErr String :=
  match r.json with
  | Except.ok j =>
      match jsonSubscript j "error" with
      | Except.ok content => Except.ok (toString r.status_code ++ " " ++ jsonStr content)
      | Except.error e => Except.error e
  | Except.error JsonFailure.decodeError =>
      Except.ok (toString r.status_code ++ " " ++ r.content)
  | Except.error e => Except.error (PyErr.jsonError e)

/-- A structured log event sent to the logging collaborator. -/
inductive LogEvent where
  | warning (msg : String)
  | info (msg : String)

/-- Outcome of running a piece of Python code: a returned value or a
raised exception. -/
inductive PyResult (α : Type) where
  | ret (a : α)
  | raise (e : PyErr)

/-- A GET request handed to the transport collaborator. -/
structure Request where
  url : String
  params : Option Dict
  headers : List (String × String)

/-- Embedding of `CoinGecko.BASE_URL`. -/
def BASE_URL : String := "https://api.coingecko.com/api/v3/"

/-- Embedding of the `CoinGecko` client configuration set in
`__init__`: the optional API key and the fail-silently flag. -/
structure CoinGecko where
  key : Option String
  fail_silently : Bool

/-- Embedding of `CoinGecko._get_headers`. -/
def CoinGecko.get_headers : List (String × String) :=
  [("accept", "application/json")]

/-- Value bound to `details` in `_get` after the try/except, as the
f-string renders it: the parsed JSON document when the parse
succeeded, else the decoded body it was initialised to. -/
def detailsStr (r : Response) : String :=
  match r.json with
  | Except.ok j => jsonStr j
  | Except.error _ => r.content

/-- Warning log message of `_get` for a non-200 response in non-silent
mode. -/
def warningMsg (status : Nat) (path details : String) : String :=
  "CoinGecko API error " ++ toString status ++ " on " ++ path ++ ": " ++ details

/-- Info log message of `_get` for a non-200 response in silent
mode. -/
def infoMsg (status : Nat) (path details : String) : String :=
  "CoinGecko API silent error " ++ toString status ++ " on " ++ path ++ ": " ++ details

/-- Embedding of the response-classification part of `CoinGecko._get`,
from the received response on: on status 200 return `r.json()` (an
unparseable 200 body raises uncaught); otherwise log once and either
raise `CoinGeckoAPIError` (via `_fail`) or return `None`, according to
`fail_silently`. -/
def responseOutcome (fail_silently : Bool) (path : String) (r : Response) :
    PyResult (Option Json) × List LogEvent :=
  if r.status_code = 200 then
    match r.json with
    | Except.ok j => (PyResult.ret (Option.some j), [])
    | Except.error e => (PyResult.raise (PyErr.jsonError e), [])
  else if fail_silently = false then
    (PyResult.raise (PyErr.apiError r),
     [LogEvent.warning (warningMsg r.status_code path (detailsStr r))])
  else
    (PyResult.ret Option.none,
     [LogEvent.info (infoMsg r.status_code path (detailsStr r))])

/-- The GET request `_get` builds: base URL plus path, the cleaned
params, and the headers from `_get_headers`. -/
def requestFor (path : String) (params : Option Dict) : Request :=
  Request.mk (BASE_URL ++ path) (clean_params params) CoinGecko.get_headers

/-- Embedding of `CoinGecko._get`: build the one GET request, hand it
to the transport collaborator, classify the response. The first
component lists the requests issued (always exactly this one). -/
def CoinGecko.get (self : CoinGecko) (transport : Request → Response)
    (path : String) (params : Option Dict) :
    List Request × (PyResult (Option Json) × List LogEvent) :=
  ([requestFor path params],
   responseOutcome self.fail_silently path (transport (requestFor path params)))

/-- Value of an optional Python bool argument: `None` when omitted. -/
def optBool : Option Bool → Value
  | Option.none => Value.none
  | Option.some b => Value.bool b

/-- Value of a list-of-strings argument. -/
def strList (xs : List String) : Value :=
  Value.list (xs.map Value.str)

/-- Embedding of `CoinGecko.get_simple_price`: delegate to `_get` on
path `simple/price` with the raw parameter mapping built from the
arguments. -/
def CoinGecko.get_simple_price (self : CoinGecko) (transport : Request → Response)
    (ids vs_currencies : List String)
    (include_market_cap include_24hr_vol include_24hr_change
     include_last_updated_at : Option Bool) :
    List Request × (PyResult (Option Json) × List LogEvent) :=
  self.get transport "simple/price" (Option.some
    [("ids", strList ids),
     ("vs_currencies", strList vs_currencies),
     ("include_market_cap", optBool include_market_cap),
     ("include_24hr_vol", optBool include_24hr_vol),
     ("include_24hr_change", optBool include_24hr_change),
     ("include_last_updated_at", optBool include_last_updated_at)])

/-- Embedding of `CoinGecko.get_coins_list`: the source passes
`str(include_platform).lower()`, stringifying the argument before any
cleaning happens. -/
def CoinGecko.get_coins_list (self : CoinGecko) (transport : Request → Response)
    (include_platform : Option Bool) :
    List Request × (PyResult (Option Json) × List LogEvent) :=
  self.get transport "coins/list" (Option.some
    [("include_platform", Value.str (pyLower (pyStr (optBool include_platform))))])

/-- Embedding of `CoinGecko.get_exchange`: the source path is the
plain (non-f-string) literal `"exchanges/{id}"`, so the braces are
sent verbatim and the `id` argument is never used. -/
def CoinGecko.get_exchange (self : CoinGecko) (transport : Request → Response)
    (id : String) :
    List Request × (PyResult (Option Json) × List LogEvent) :=
  self.get transport "exchanges/{id}" Option.none

/-- Embedding of `CoinGecko.get_indexes_by_market_id`: the source path
is the plain literal `"indexes/{market_id}/{id}"`; neither argument is
used. -/
def CoinGecko.get_indexes_by_market_id (self : CoinGecko) (transport : Request → Response)
    (market_id : String) (id : String) :
    List Request × (PyResult (Option Json) × List LogEvent) :=
  self.get transport "indexes/{market_id}/{id}" Option.none

/-- Embedding of `CoinGecko.get_companies`: the source path is the
plain literal `"companies/public_treasury/{coin_id}"`; the argument is
never used. -/
def CoinGecko.get_companies (self : CoinGecko) (transport : Request → Response)
    (coin_id : String) :
    List Request × (PyResult (Option Json) × List LogEvent) :=
  self.get transport "companies/public_treasury/{coin_id}" Option.none

/-- A client built with the constructor's default arguments: no API
key, `fail_silently = False`. -/
def defaultClient : CoinGecko :=
  CoinGecko.mk Option.none false

/-- A successful empty-object response, as a transport stub. -/
def resp200 : Response :=
  Response.mk 200 "\x7b\x7d" (Except.ok (Json.obj []))

/-- A 404 response whose body is not valid JSON, as a transport
stub. -/
def resp404 : Response :=
  Response.mk 404 "boom" (Except.error JsonFailure.decodeError)

lemma cleanValue_idem (v : Value) : cleanValue (cleanValue v) = cleanValue v := by
  cases v <;> rfl

lemma isNotNone_cleanValue (v : Value) (h : isNotNone v = true) :
    isNotNone (cleanValue v) = true := by
  cases v <;> first | rfl | simp [isNotNone] at h

lemma cleanValue_shape (v : Value) (hv : isNotNone v = true) :
    cleanValue v ≠ Value.none ∧ (∀ b, cleanValue v ≠ Value.bool b)
      ∧ (∀ xs, cleanValue v ≠ Value.list xs) := by
  cases v <;> first
    | exact ⟨fun h => Value.noConfusion h, fun _ h => Value.noConfusion h,
             fun _ h => Value.noConfusion h⟩
    | simp [isNotNone] at hv

lemma mem_clean_dict_values {l : Dict} {kv : String × Value} (h : kv ∈ clean_dict_values l) :
    ∃ w, (kv.1, w) ∈ l ∧ kv.2 = cleanValue w := by
  simp only [clean_dict_values, List.mem_map] at h
  obtain ⟨a, hal, ha⟩ := h
  exact ⟨a.2, by rw [← ha]; exact hal, by rw [← ha]⟩

lemma remove_empty_of_all_not_none (l : Dict) (h : ∀ kv ∈ l, isNotNone kv.2 = true) :
    remove_empty_dict_values l = l := by
  induction l with
  | nil => rfl
  | cons a t ih =>
    have ha := h a (List.mem_cons_self a t)
    have ht : ∀ kv ∈ t, isNotNone kv.2 = true :=
      fun kv hkv => h kv (List.mem_cons_of_mem a hkv)
    have ih' := ih ht
    simp only [remove_empty_dict_values] at ih' ⊢
    simp [List.filter_cons, ha, ih']

lemma remove_empty_clean_remove (l : Dict) :
    remove_empty_dict_values (clean_dict_values (remove_empty_dict_values l))
      = clean_dict_values (remove_empty_dict_values l) := by
  apply remove_empty_of_all_not_none
  intro kv hkv
  obtain ⟨w, hw, hkv2⟩ := mem_clean_dict_values hkv
  have hwnn : isNotNone w = true := (List.mem_filter.mp hw).2
  rw [hkv2]
  exact isNotNone_cleanValue w hwnn

lemma clean_dict_values_idem (l : Dict) :
    clean_dict_values (clean_dict_values l) = clean_dict_values l := by
  induction l with
  | nil => rfl
  | cons a t ih =>
    show (a.1, cleanValue (cleanValue a.2)) :: clean_dict_values (clean_dict_values t)
      = (a.1, cleanValue a.2) :: clean_dict_values t
    rw [cleanValue_idem, ih]

lemma keys_nodup_unique {l : Dict} (h : (l.map Prod.fst).Nodup) {k : String}
    {v w : Value} (hv : (k, v) ∈ l) (hw : (k, w) ∈ l) : v = w := by
  induction l with
  | nil => cases hv
  | cons a t ih =>
    have hna : a.1 ∉ t.map Prod.fst := (List.nodup_cons.mp h).1
    have hnt : (t.map Prod.fst).Nodup := (List.nodup_cons.mp h).2
    cases hv with
    | head =>
      cases hw with
      | head => rfl
      | tail _ hw' => exact absurd (List.mem_map_of_mem Prod.fst hw') hna
    | tail _ hv' =>
      cases hw with
      | head => exact absurd (List.mem_map_of_mem Prod.fst hv') hna
      | tail _ hw' => exact ih hnt hv' hw'

lemma not_mem_clean_of_none {m : Dict} (hnd : (m.map Prod.fst).Nodup) {k : String}
    (hk : (k, Value.none) ∈ m) (v : Value) :
    (k, v) ∉ clean_dict_values (remove_empty_dict_values m) := by
  intro hmem
  obtain ⟨w, hw, _⟩ := mem_clean_dict_values hmem
  have hwm : (k, w) ∈ m := (List.mem_filter.mp hw).1
  have hwnn : isNotNone w = true := (List.mem_filter.mp hw).2
  have hww : Value.none = w := keys_nodup_unique hnd hk hwm
  rw [← hww] at hwnn
  simp [isNotNone] at hwnn

lemma intercalate_comma_three (a b c : String) :
    String.intercalate "," [a, b, c] = a ++ "," ++ b ++ "," ++ c := by
  simp [String.intercalate, String.intercalate.go]

/-- C1: for every call of the request pipeline `_get` that receives a
response: on status exactly 200 with a JSON-parseable body the call
returns the parsed body and logs nothing; on a non-200 status with
`fail_silently` false it emits exactly one warning-level log event and
raises `CoinGeckoAPIError`; on a non-200 status with `fail_silently`
true it emits exactly one info-level log event and returns `None`
without raising. -/
theorem get_response_classification (self : CoinGecko) (transport : Request → Response)
    (path : String) (params : Option Dict) :
    (∀ j, (transport (requestFor path params)).status_code = 200 →
      (transport (requestFor path params)).json = Except.ok j →
      (self.get transport path params).2 = (PyResult.ret (Option.some j), []))
    ∧ ((transport (requestFor path params)).status_code ≠ 200 →
      self.fail_silently = false →
      (self.get transport path params).2 =
        (PyResult.raise (PyErr.apiError (transport (requestFor path params))),
         [LogEvent.warning (warningMsg (transport (requestFor path params)).status_code
            path (detailsStr (transport (requestFor path params))))]))
    ∧ ((transport (requestFor path params)).status_code ≠ 200 →
      self.fail_silently = true →
      (self.get transport path params).2 =
        (PyResult.ret Option.none,
         [LogEvent.info (infoMsg (transport (requestFor path params)).status_code
            path (detailsStr (transport (requestFor path params))))])) := by
  refine ⟨?_, ?_, ?_⟩
  · intro j h200 hjson
    simp [CoinGecko.get, responseOutcome, h200, hjson]
  · intro hne hfs
    simp [CoinGecko.get, responseOutcome, hne, hfs]
  · intro hne hfs
    simp [CoinGecko.get, responseOutcome, hne, hfs]

/-- Witness for C1: the three branches at concrete transports — a 200
with body `\x7b\x7d`, and a 404 with unparseable body `boom` in each
of the two silence modes. -/
theorem get_response_classification_witness :
    ((CoinGecko.mk Option.none false).get (fun _ => resp200) "ping" Option.none).2
      = (PyResult.ret (Option.some (Json.obj [])), [])
    ∧ ((CoinGecko.mk Option.none false).get (fun _ => resp404) "test" Option.none).2
      = (PyResult.raise (PyErr.apiError resp404),
         [LogEvent.warning (warningMsg 404 "test" "boom")])
    ∧ ((CoinGecko.mk Option.none true).get (fun _ => resp404) "test" Option.none).2
      = (PyResult.ret Option.none, [LogEvent.info (infoMsg 404 "test" "boom")]) := by
  refine ⟨?_, ?_, ?_⟩
  · exact (get_response_classification _ _ _ _).1 (Json.obj []) rfl rfl
  · exact (get_response_classification _ _ _ _).2.1 (by decide) rfl
  · exact (get_response_classification _ _ _ _).2.2 (by decide) rfl

/-- C2 counterexample: normalization is not idempotent on its own
output. On the mapping with the single entry `a ↦ None`, `clean_params`
returns the present empty mapping, but re-applying `clean_params` to
that output returns absent, because the empty dict is falsy. -/
theorem clean_params_not_idempotent_on_emptied :
    clean_params (clean_params (Option.some [("a", Value.none)]))
      ≠ clean_params (Option.some [("a", Value.none)]) := by
  intro h
  have h1 : clean_params (Option.some [("a", Value.none)]) = Option.some [] := rfl
  have h2 : clean_params (clean_params (Option.some [("a", Value.none)])) = Option.none := rfl
  exact Option.noConfusion (h2.symm.trans (h.trans h1))

/-- C2 (amended): applying `clean_params` to the result of
`clean_params m` returns an equal mapping whenever that result is not
the present empty mapping — that is, except when `m` is a present
non-empty mapping all of whose values are absent. -/
theorem clean_params_idem_of_ne_empty (m : Option Dict)
    (h : clean_params m ≠ Option.some []) :
    clean_params (clean_params m) = clean_params m := by
  cases m with
  | none => rfl
  | some d =>
    by_cases hd : d.isEmpty
    · simp [clean_params, hd]
    · have hcp : clean_params (Option.some d)
          = Option.some (clean_dict_values (remove_empty_dict_values d)) := by
        simp [clean_params, hd]
      rw [hcp]
      have hne : (clean_dict_values (remove_empty_dict_values d)).isEmpty = false := by
        cases hcdl : clean_dict_values (remove_empty_dict_values d) with
        | nil => exact absurd (hcp.trans (by rw [hcdl])) h
        | cons a t => rfl
      simp [clean_params, hne, remove_empty_clean_remove, clean_dict_values_idem]

/-- Witness for C2 (amended): a mapping with one absent-valued entry
and one boolean entry cleans to a non-empty mapping, and re-cleaning
that output is a no-op. -/
theorem clean_params_idem_of_ne_empty_witness :
    clean_params (Option.some [("b", Value.bool true), ("a", Value.none)]) ≠ Option.some []
    ∧ clean_params (clean_params (Option.some [("b", Value.bool true), ("a", Value.none)]))
      = clean_params (Option.some [("b", Value.bool true), ("a", Value.none)]) := by
  have hne : clean_params (Option.some [("b", Value.bool true), ("a", Value.none)])
      ≠ Option.some [] := by
    intro h
    have h1 : clean_params (Option.some [("b", Value.bool true), ("a", Value.none)])
        = Option.some [("b", Value.str "true")] := rfl
    rw [h1] at h
    exact List.cons_ne_nil _ _ (Option.some.inj h)
  exact ⟨hne, clean_params_idem_of_ne_empty _ hne⟩

/-- C3: the spec says path parameters are interpolated directly into
the path, but `get_exchange`, `get_indexes_by_market_id` and
`get_companies` build their paths from plain (non-f-string) literals,
so the request sent carries the literal placeholder text and the
identifier arguments are ignored entirely: `get_exchange("binance")`
requests `exchanges/\x7bid\x7d` and gives the same result as
`get_exchange("kraken")`. -/
theorem literal_placeholder_paths (transport : Request → Response) :
    (defaultClient.get_exchange transport "binance").1
      = [Request.mk (BASE_URL ++ "exchanges/{id}") Option.none
          [("accept", "application/json")]]
    ∧ (defaultClient.get_indexes_by_market_id transport "btc" "defi").1
      = [Request.mk (BASE_URL ++ "indexes/{market_id}/{id}") Option.none
          [("accept", "application/json")]]
    ∧ (defaultClient.get_companies transport "bitcoin").1
      = [Request.mk (BASE_URL ++ "companies/public_treasury/{coin_id}") Option.none
          [("accept", "application/json")]]
    ∧ defaultClient.get_exchange transport "binance"
      = defaultClient.get_exchange transport "kraken" :=
  ⟨rfl, rfl, rfl, rfl⟩

/-- C4 counterexample: an `APIError` over a 404 response whose body is
the valid JSON object `\x7b\x7d` does not render as
`"<status code> <detail>"` at all — the rendering raises an uncaught
`KeyError`, because the body parses as JSON but has no `error`
field. -/
theorem apiError_str_keyError :
    CoinGeckoAPIError.str (Response.mk 404 "\x7b\x7d" (Except.ok (Json.obj [])))
      = Except.error (PyErr.keyError "error") := rfl

/-- C4 (amended): for every `APIError` carrying a response whose body
either parses as a JSON object containing an `error` field, or fails
JSON parsing with a decode error, the string rendering is
`"<status code> <detail>"`, with detail the `error` field's value in
the first case and the raw decoded body text in the second. -/
theorem apiError_str_rendering (r : Response) :
    (∀ j v, r.json = Except.ok j → jsonSubscript j "error" = Except.ok v →
      CoinGeckoAPIError.str r = Except.ok (toString r.status_code ++ " " ++ jsonStr v))
    ∧ (r.json = Except.error JsonFailure.decodeError →
      CoinGeckoAPIError.str r = Except.ok (toString r.status_code ++ " " ++ r.content)) := by
  constructor
  · intro j v hj hv
    simp [CoinGeckoAPIError.str, hj, hv]
  · intro hj
    simp [CoinGeckoAPIError.str, hj]

/-- Witness for C4 (amended): a 404 whose body parses to
`\x7b"error": "Not Found"\x7d` renders as `404 Not Found`, and a 404
whose body `Not Found Message Content` is not valid JSON renders as
`404 Not Found Message Content`. -/
theorem apiError_str_rendering_witness :
    CoinGeckoAPIError.str (Response.mk 404 "\x7b\"error\": \"Not Found\"\x7d"
        (Except.ok (Json.obj [("error", Json.jstr "Not Found")])))
      = Except.ok "404 Not Found"
    ∧ CoinGeckoAPIError.str (Response.mk 404 "Not Found Message Content"
        (Except.error JsonFailure.decodeError))
      = Except.ok "404 Not Found Message Content" := by
  constructor
  · exact (apiError_str_rendering _).1 (Json.obj [("error", Json.jstr "Not Found")])
      (Json.jstr "Not Found") rfl rfl
  · exact (apiError_str_rendering _).2 rfl

/-- C5: every mapping produced by normalization has no absent-valued
entry and no raw boolean or raw list value, and (for a mapping with
distinct keys, as every Python dict has) every key whose input value
was absent is missing from the output. -/
theorem clean_params_invariant (params d : Dict)
    (h : clean_params (Option.some params) = Option.some d) :
    (∀ kv ∈ d, kv.2 ≠ Value.none ∧ (∀ b, kv.2 ≠ Value.bool b)
      ∧ (∀ xs, kv.2 ≠ Value.list xs))
    ∧ ((params.map Prod.fst).Nodup →
      ∀ k, (k, Value.none) ∈ params → ∀ v, (k, v) ∉ d) := by
  have hd : d = clean_dict_values (remove_empty_dict_values params) := by
    by_cases hp : params.isEmpty
    · simp [clean_params, hp] at h
    · simp [clean_params, hp] at h
      exact h.symm
  subst hd
  constructor
  · intro kv hkv
    obtain ⟨w, hw, hv⟩ := mem_clean_dict_values hkv
    have hwnn : isNotNone w = true := (List.mem_filter.mp hw).2
    rw [hv]
    exact cleanValue_shape w hwnn
  · intro hnd k hk v
    exact not_mem_clean_of_none hnd hk v

/-- Witness for C5: cleaning `\x7ba ↦ None, b ↦ True\x7d` yields
`\x7bb ↦ "true"\x7d`, and no entry keyed `a` survives. -/
theorem clean_params_invariant_witness :
    ("a", Value.int 7) ∉ ([("b", Value.str "true")] : Dict) := by
  exact (clean_params_invariant [("a", Value.none), ("b", Value.bool true)]
      [("b", Value.str "true")] rfl).2 (by simp) "a" (by simp) (Value.int 7)

/-- C6: after the drop-absent step, cleaning rewrites a boolean entry
to the lowercase string `true`/`false` matching it, rewrites a list
entry to the comma join of the `str` of its elements — for `[a, b, c]`
the single string `a,b,c` with no leading or trailing comma — and
keeps every other entry unchanged. -/
theorem clean_dict_values_rewrites (d : Dict) (k : String) (v : Value)
    (h : (k, v) ∈ d) :
    (∀ b, v = Value.bool b →
      (k, Value.str (if b then "true" else "false")) ∈ clean_dict_values d)
    ∧ (∀ xs, v = Value.list xs →
      (k, Value.str (String.intercalate "," (xs.map pyStr))) ∈ clean_dict_values d)
    ∧ (∀ a b c, v = Value.list [a, b, c] →
      (k, Value.str (pyStr a ++ "," ++ pyStr b ++ "," ++ pyStr c)) ∈ clean_dict_values d)
    ∧ ((∀ b, v ≠ Value.bool b) → (∀ xs, v ≠ Value.list xs) →
      (k, v) ∈ clean_dict_values d) := by
  refine ⟨?_, ?_, ?_, ?_⟩
  · intro b hb
    subst hb
    cases b
    · exact List.mem_map_of_mem _ h
    · exact List.mem_map_of_mem _ h
  · intro xs hxs
    subst hxs
    exact List.mem_map_of_mem _ h
  · intro a b c habc
    subst habc
    rw [show pyStr a ++ "," ++ pyStr b ++ "," ++ pyStr c
        = String.intercalate "," [pyStr a, pyStr b, pyStr c]
      from (intercalate_comma_three _ _ _).symm]
    exact List.mem_map_of_mem _ h
  · intro hb hl
    cases v with
    | str s => exact List.mem_map_of_mem _ h
    | bool b => exact absurd rfl (hb b)
    | int n => exact List.mem_map_of_mem _ h
    | list xs => exact absurd rfl (hl xs)
    | none => exact List.mem_map_of_mem _ h

/-- Witness for C6: the entry `s ↦ False` is rewritten to
`s ↦ "false"`. -/
theorem clean_dict_values_rewrites_witness :
    ("s", Value.str "false") ∈ clean_dict_values [("s", Value.bool false)] := by
  exact (clean_dict_values_rewrites [("s", Value.bool false)] "s" (Value.bool false)
      (by simp)).1 false rfl

/-- C7: `get_simple_price` with `ids=["bitcoin","ethereum"]`,
`vs_currencies=["usd"]` and all optional flags absent issues exactly
one GET request, to path `simple/price`, whose normalized query
parameters are exactly `ids=bitcoin,ethereum` and `vs_currencies=usd`,
with no other keys. -/
theorem get_simple_price_request (transport : Request → Response) :
    (defaultClient.get_simple_price transport ["bitcoin", "ethereum"] ["usd"]
        Option.none Option.none Option.none Option.none).1
      = [Request.mk (BASE_URL ++ "simple/price")
          (Option.some [("ids", Value.str "bitcoin,ethereum"),
                        ("vs_currencies", Value.str "usd")])
          [("accept", "application/json")]] := rfl

/-- C8 counterexample: a present empty mapping is a present mapping,
yet normalization maps it to absent, not to a present cleaned
mapping — the falsiness check at the top of `clean_params` conflates
the empty dict with `None`. -/
theorem clean_params_empty_input_absent :
    clean_params (Option.some ([] : Dict)) = Option.none := rfl

/-- C8 (amended): absent input yields absent output, and every present
non-empty mapping (with distinct keys, as every Python dict has)
yields a present cleaned mapping containing no key whose input value
was absent. -/
theorem clean_params_presence :
    clean_params Option.none = Option.none
    ∧ ∀ m : Dict, m ≠ [] → (m.map Prod.fst).Nodup →
      ∃ d, clean_params (Option.some m) = Option.some d
        ∧ ∀ k, (k, Value.none) ∈ m → ∀ v, (k, v) ∉ d := by
  refine ⟨rfl, ?_⟩
  intro m hm hnd
  have hme : m.isEmpty = false := by
    cases m with
    | nil => exact absurd rfl hm
    | cons a t => rfl
  refine ⟨clean_dict_values (remove_empty_dict_values m), ?_, ?_⟩
  · simp [clean_params, hme]
  · intro k hk v
    exact not_mem_clean_of_none hnd hk v

/-- Witness for C8 (amended): the non-empty mapping
`\x7ba ↦ None, b ↦ 1\x7d` yields a present cleaned mapping with no
entry keyed `a`. -/
theorem clean_params_presence_witness :
    ∃ d, clean_params (Option.some [("a", Value.none), ("b", Value.int 1)]) = Option.some d
      ∧ ∀ k, (k, Value.none) ∈ ([("a", Value.none), ("b", Value.int 1)] : Dict) →
        ∀ v, (k, v) ∉ d := by
  exact clean_params_presence.2 [("a", Value.none), ("b", Value.int 1)]
    (by simp) (by simp)

/-- C9: `get_coins_list` with `include_platform` absent issues its
request with query parameter `include_platform=none` — the source
stringifies the argument with `str(...).lower()` before cleaning, so
the drop-absent step never sees the absent value and the key is not
omitted. -/
theorem get_coins_list_none_request (transport : Request → Response) :
    (defaultClient.get_coins_list transport Option.none).1
      = [Request.mk (BASE_URL ++ "coins/list")
          (Option.some [("include_platform", Value.str "none")])
          [("accept", "application/json")]] := rfl

/-- C10: a non-200 response whose body parses as a valid JSON object
with no `error` field makes the raised `APIError`'s string rendering
fail with an uncaught `KeyError` instead of producing the raw-body
fallback: only a JSON decode failure is caught by the fallback
branch. -/
theorem apiError_str_missing_error_key (r : Response) (fs : List (String × Json))
    (hj : r.json = Except.ok (Json.obj fs))
    (hk : fs.lookup "error" = Option.none) :
    CoinGeckoAPIError.str r = Except.error (PyErr.keyError "error") := by
  simp [CoinGeckoAPIError.str, hj, jsonSubscript, hk]

/-- Witness for C10: a 500 response with valid JSON body `\x7b\x7d`
(no `error` field) renders to an uncaught `KeyError`. -/
theorem apiError_str_missing_error_key_witness :
    CoinGeckoAPIError.str (Response.mk 500 "\x7b\x7d" (Except.ok (Json.obj [])))
      = Except.error (PyErr.keyError "error") := by
  exact apiError_str_missing_error_key _ [] rfl rfl

end CoinGeckoSpec
